import Mathlib

/-!
# Verification of the filte.rs real-time filter kernels

Shallow embedding of the repository's numerical core: the trapezoidal
`Integrator` primitive (src/lib.rs), the `OnePole` filter and its parameter
smoothing wrapper (src/one_pole.rs), and the `SVF` filter and its parameter
smoothing wrapper (src/svf.rs).

All quantities in the source are fixed-width SIMD lane vectors whose
operations are elementwise and lane-independent, so a single lane suffices;
a lane is modelled as an exact rational (`ℚ`), which makes every algebraic
identity of the per-sample update decidable on concrete inputs.  Fused
multiply-add (`mul_add`) is exact multiplication-then-addition here.
Division is the total field division of `ℚ` (with `a / 0 = 0`); the range
analysis of the one division in `SVF.process` shows its divisor is nonzero
in the documented parameter range.

The external collaborators (the tangent-half-angle map `g`, the lane-wise
square root, and the `LogSmoother` coefficient interpolator from the
`simd_util` crate) are not part of this repository; they enter the
embedding as an abstract primitive bundle `Prim` and a minimal `LogSmoother`
state model carrying exactly the interface the specification gives them.
-/

set_option autoImplicit false
set_option linter.unusedVariables false

namespace Filters

/-- One lane of a SIMD vector of floats, modelled exactly. -/
abbrev F : Type := ℚ

/-! ## Integrator (src/lib.rs)

Transposed Direct Form II trapezoidal integrator without the `0.5`
pre-gain.  Difference equations (from the source doc comment):
`y[n] = x[n] + v[n-1]`, `v[n] = y[n] + x[n]`. -/

/-- State of `Integrator`: internal state `s` (`v[n]`) and cached output
`out` (`y[n]`). -/
structure Integrator where
  s : F
  out : F
deriving DecidableEq

/-- Zero initialization (`#[derive(Default)]` in the source). -/
def Integrator.init : Integrator := { s := 0, out := 0 }

/-- `Integrator::process`: `self.out = x + self.s; self.s = self.out + x;` -/
def Integrator.process (i : Integrator) (x : F) : Integrator :=
  let out := x + i.s
  { out := out, s := out + x }

/-- `Integrator::output`: returns the cached `out`. -/
def Integrator.output (i : Integrator) : F := i.out

/-- `Integrator::state`: returns the internal `s`. -/
def Integrator.state (i : Integrator) : F := i.s

/-- `Integrator::reset`: `self.s = Simd::splat(0.)` — only `s` is zeroed. -/
def Integrator.reset (i : Integrator) : Integrator := { i with s := 0 }

/-- Feed `n` zero input samples to an integrator, one `process` per sample. -/
def Integrator.processN (i : Integrator) : ℕ → Integrator
  | 0 => i
  | n + 1 => (i.process 0).processN n

/-! ## OnePole (src/one_pole.rs) -/

/-- State of `OnePole`: one owned integrator `lp` plus the cached raw
input `x`. -/
structure OnePole where
  lp : Integrator
  x : F
deriving DecidableEq

/-- Zero initialization (`#[derive(Default)]`). -/
def OnePole.init : OnePole := { lp := Integrator.init, x := 0 }

/-- `OnePole::reset`: delegates to the integrator. -/
def OnePole.reset (f : OnePole) : OnePole := { f with lp := f.lp.reset }

/-- `OnePole::process`:
`self.x = x; self.lp.process((x - self.lp.state()) * g1);` -/
def OnePole.process (f : OnePole) (x g1 : F) : OnePole :=
  { x := x, lp := f.lp.process ((x - f.lp.state) * g1) }

/-- `OnePole::get_passthrough`. -/
def OnePole.get_passthrough (f : OnePole) : F := f.x

/-- `OnePole::get_lowpass`: `self.lp.output()`. -/
def OnePole.get_lowpass (f : OnePole) : F := f.lp.output

/-- `OnePole::get_highpass`: `&self.x - self.get_lowpass()`. -/
def OnePole.get_highpass (f : OnePole) : F := f.x - f.get_lowpass

/-- `OnePole::get_allpass`: `self.get_lowpass() - self.get_highpass()`. -/
def OnePole.get_allpass (f : OnePole) : F := f.get_lowpass - f.get_highpass

/-- `OnePole::get_low_shelf`: `gain.mul_add(lowpass, highpass)`. -/
def OnePole.get_low_shelf (f : OnePole) (gain : F) : F :=
  gain * f.get_lowpass + f.get_highpass

/-- `OnePole::get_high_shelf`: `gain.mul_add(highpass, lowpass)`. -/
def OnePole.get_high_shelf (f : OnePole) (gain : F) : F :=
  gain * f.get_highpass + f.get_lowpass

/-! ## SVF (src/svf.rs) -/

/-- State of `SVF`: two owned integrators `bp` and `lp`, plus the cached
raw input `x`, highpass value `hp`, and unit bandpass value `bp1`. -/
structure SVF where
  x : F
  hp : F
  bp : Integrator
  bp1 : F
  lp : Integrator
deriving DecidableEq

/-- Zero initialization (`#[derive(Default)]`). -/
def SVF.init : SVF :=
  { x := 0, hp := 0, bp := Integrator.init, bp1 := 0, lp := Integrator.init }

/-- `SVF::reset`: resets both owned integrators. -/
def SVF.reset (f : SVF) : SVF := { f with bp := f.bp.reset, lp := f.lp.reset }

/-- `SVF::process`:
```rust
self.x = x;
let &bp_s = self.bp.state();
let &lp_s = self.lp.state();
let g1 = res + g;
self.hp = g1.mul_add(-bp_s, self.x - lp_s) / g1.mul_add(g, Simd::splat(1.));
self.bp.process(self.hp * g);
let &bp = self.bp.output();
self.bp1 = bp * res;
self.lp.process(bp * g);
```
-/
def SVF.process (f : SVF) (x g res : F) : SVF :=
  let bp_s := f.bp.state
  let lp_s := f.lp.state
  let g1 := res + g
  let hp := (g1 * (-bp_s) + (x - lp_s)) / (g1 * g + 1)
  let bp := f.bp.process (hp * g)
  let bpOut := bp.output
  { x := x, hp := hp, bp := bp, bp1 := bpOut * res, lp := f.lp.process (bpOut * g) }

/-- `SVF::get_passthrough`. -/
def SVF.get_passthrough (f : SVF) : F := f.x

/-- `SVF::get_lowpass`: `self.lp.output()`. -/
def SVF.get_lowpass (f : SVF) : F := f.lp.output

/-- `SVF::get_bandpass`: `self.bp.output()`. -/
def SVF.get_bandpass (f : SVF) : F := f.bp.output

/-- `SVF::get_unit_bandpass`: `&self.bp1`. -/
def SVF.get_unit_bandpass (f : SVF) : F := f.bp1

/-- `SVF::get_highpass`: `&self.hp`. -/
def SVF.get_highpass (f : SVF) : F := f.hp

/-- `SVF::get_allpass`: `bp1.mul_add(2, -x)`, i.e. `2 * bp1 - x`. -/
def SVF.get_allpass (f : SVF) : F := f.get_unit_bandpass * 2 + (-f.x)

/-- `SVF::get_notch`: `x - bp1`. -/
def SVF.get_notch (f : SVF) : F := f.get_passthrough - f.get_unit_bandpass

/-- `SVF::get_high_shelf`:
`root_gain.mul_add(root_gain.mul_add(hp, bp1), lp)`. -/
def SVF.get_high_shelf (f : SVF) (root_gain : F) : F :=
  root_gain * (root_gain * f.get_highpass + f.get_unit_bandpass) + f.get_lowpass

/-- `SVF::get_band_shelf`: `bp1.mul_add(root_gain, x - bp1)`. -/
def SVF.get_band_shelf (f : SVF) (root_gain : F) : F :=
  f.get_unit_bandpass * root_gain + (f.get_passthrough - f.get_unit_bandpass)

/-- `SVF::get_low_shelf`:
`root_gain.mul_add(root_gain.mul_add(lp, bp1), hp)`. -/
def SVF.get_low_shelf (f : SVF) (root_gain : F) : F :=
  root_gain * (root_gain * f.get_lowpass + f.get_unit_bandpass) + f.get_highpass

/-! ## External primitives and the coefficient smoother

The tangent-half-angle map `g(w_c) = tan(w_c / 2)` and the lane-wise square
root come from the external `simd_util` crate; the embedding abstracts them
as an arbitrary primitive bundle, so every statement below holds for (in
particular) the real primitives. -/

/-- The external per-lane primitives used by the parameter setters:
`g` is the tangent-half-angle map `w_c ↦ tan(w_c / 2)` and `sqrt` the
lane-wise square root. -/
structure Prim where
  g : F → F
  sqrt : F → F

/-- A concrete primitive bundle (identity maps) used to evaluate setters on
explicit inputs; at an input that is a fixed point of the real primitive,
the identity map agrees with it. -/
def idPrim : Prim := { g := fun w => w, sqrt := fun v => v }

/-- Modelled from the spec: the external `LogSmoother` collaborator (from
`simd_util`, not part of this repository) holds a current value and
interpolates geometrically toward a target over a configurable number of
steps; `set_all_vals_instantly(v)` writes `v` as the current value at once,
while `set_target(v, inc)` only records `v` as the target to be reached,
leaving the current value untouched.  The per-step geometric interpolation
(`tick1`) is not needed by the claims and is omitted from the model. -/
structure LogSmoother where
  value : F
  target : F
deriving DecidableEq

/-- `LogSmoother::set_all_vals_instantly`: the value (and the target it is
already at) becomes `v` immediately. -/
def LogSmoother.set_all_vals_instantly (sm : LogSmoother) (v : F) :
    LogSmoother :=
  { value := v, target := v }

/-- `LogSmoother::set_target`: records `v` as the interpolation target to
be reached over `inc` steps; the current value is untouched. -/
def LogSmoother.set_target (sm : LogSmoother) (v inc : F) : LogSmoother :=
  { sm with target := v }

/-! ## OnePoleParamsSmoothed (src/one_pole.rs) -/

/-- Top-level helper `g1` in src/one_pole.rs:
`let g = g(w_c).abs(); g / (1. + g)` — the `g / (1 + g)` normalization of
the (absolute value of the) tangent-half-angle image of its argument. -/
def g1 (pr : Prim) (w_c : F) : F :=
  |pr.g w_c| / (1 + |pr.g w_c|)

/-- `OnePoleParamsSmoothed`: one smoother per derived coefficient
(`g1` the filtering factor, `k` the gain). -/
structure OnePoleParamsSmoothed where
  g1 : LogSmoother
  k : LogSmoother
deriving DecidableEq

/-- `OnePoleParamsSmoothed::get_g1`. -/
def OnePoleParamsSmoothed.get_g1 (p : OnePoleParamsSmoothed) : F :=
  p.g1.value

/-- `OnePoleParamsSmoothed::get_gain`. -/
def OnePoleParamsSmoothed.get_gain (p : OnePoleParamsSmoothed) : F :=
  p.k.value

/-- `OnePoleParamsSmoothed::set_values`:
`self.g1.set_all_vals_instantly(g1(g)); self.k.set_all_vals_instantly(k);` -/
def OnePoleParamsSmoothed.set_values (pr : Prim) (p : OnePoleParamsSmoothed)
    (g k : F) : OnePoleParamsSmoothed :=
  { g1 := p.g1.set_all_vals_instantly (Filters.g1 pr g),
    k := p.k.set_all_vals_instantly k }

/-- `OnePoleParamsSmoothed::set_params`: `self.set_values(g(w_c), gain)`. -/
def OnePoleParamsSmoothed.set_params (pr : Prim) (p : OnePoleParamsSmoothed)
    (w_c gain : F) : OnePoleParamsSmoothed :=
  p.set_values pr (pr.g w_c) gain

/-- `OnePoleParamsSmoothed::set_params_low_shelving`:
`self.k.set_all_vals_instantly(gain);
self.g1.set_all_vals_instantly(g(w_c) / gain.sqrt());` -/
def OnePoleParamsSmoothed.set_params_low_shelving (pr : Prim)
    (p : OnePoleParamsSmoothed) (w_c gain : F) : OnePoleParamsSmoothed :=
  { k := p.k.set_all_vals_instantly gain,
    g1 := p.g1.set_all_vals_instantly (pr.g w_c / pr.sqrt gain) }

/-- `OnePoleParamsSmoothed::set_params_high_shelving`:
`self.k.set_all_vals_instantly(gain);
self.g1.set_all_vals_instantly(g(w_c) * gain.sqrt());` -/
def OnePoleParamsSmoothed.set_params_high_shelving (pr : Prim)
    (p : OnePoleParamsSmoothed) (w_c gain : F) : OnePoleParamsSmoothed :=
  { k := p.k.set_all_vals_instantly gain,
    g1 := p.g1.set_all_vals_instantly (pr.g w_c * pr.sqrt gain) }

/-- `OnePoleParamsSmoothed::set_values_smoothed`:
`self.g1.set_target(g1(g), inc); self.k.set_target(k, inc);` -/
def OnePoleParamsSmoothed.set_values_smoothed (pr : Prim)
    (p : OnePoleParamsSmoothed) (g k inc : F) : OnePoleParamsSmoothed :=
  { g1 := p.g1.set_target (Filters.g1 pr g) inc,
    k := p.k.set_target k inc }

/-- `OnePoleParamsSmoothed::set_params_smoothed`:
`self.set_values_smoothed(g(w_c), gain, inc)`. -/
def OnePoleParamsSmoothed.set_params_smoothed (pr : Prim)
    (p : OnePoleParamsSmoothed) (w_c gain inc : F) : OnePoleParamsSmoothed :=
  p.set_values_smoothed pr (pr.g w_c) gain inc

/-- `OnePoleParamsSmoothed::set_params_low_shelving_smoothed`:
`self.set_values_smoothed(g(w_c) / gain.sqrt(), gain, inc)`. -/
def OnePoleParamsSmoothed.set_params_low_shelving_smoothed (pr : Prim)
    (p : OnePoleParamsSmoothed) (w_c gain inc : F) : OnePoleParamsSmoothed :=
  p.set_values_smoothed pr (pr.g w_c / pr.sqrt gain) gain inc

/-- `OnePoleParamsSmoothed::set_params_high_shelving_smoothed`:
`self.set_values_smoothed(g(w_c) * gain.sqrt(), gain, inc)`. -/
def OnePoleParamsSmoothed.set_params_high_shelving_smoothed (pr : Prim)
    (p : OnePoleParamsSmoothed) (w_c gain inc : F) : OnePoleParamsSmoothed :=
  p.set_values_smoothed pr (pr.g w_c * pr.sqrt gain) gain inc

/-! ## SVFParamsSmoothed (src/svf.rs) -/

/-- `SVFParamsSmoothed`: one smoother per derived coefficient
(`g` the integrator pre-gain, `r` the resonance, `k` the root gain). -/
structure SVFParamsSmoothed where
  g : LogSmoother
  r : LogSmoother
  k : LogSmoother
deriving DecidableEq

/-- `SVFParamsSmoothed::get_g`. -/
def SVFParamsSmoothed.get_g (q : SVFParamsSmoothed) : F := q.g.value

/-- `SVFParamsSmoothed::get_res`. -/
def SVFParamsSmoothed.get_res (q : SVFParamsSmoothed) : F := q.r.value

/-- `SVFParamsSmoothed::get_root_gain`. -/
def SVFParamsSmoothed.get_root_gain (q : SVFParamsSmoothed) : F := q.k.value

/-- `SVFParamsSmoothed::set_values`: all three coefficients written
instantly. -/
def SVFParamsSmoothed.set_values (q : SVFParamsSmoothed) (g res gain : F) :
    SVFParamsSmoothed :=
  { k := q.k.set_all_vals_instantly gain,
    g := q.g.set_all_vals_instantly g,
    r := q.r.set_all_vals_instantly res }

/-- `SVFParamsSmoothed::set_params_low_shelving`:
`let m2 = gain.sqrt(); self.set_values(g(w_c) / m2.sqrt(), res, m2);` -/
def SVFParamsSmoothed.set_params_low_shelving (pr : Prim)
    (q : SVFParamsSmoothed) (w_c res gain : F) : SVFParamsSmoothed :=
  q.set_values (pr.g w_c / pr.sqrt (pr.sqrt gain)) res (pr.sqrt gain)

/-- `SVFParamsSmoothed::set_params_band_shelving`:
`self.set_values(g(w_c), res / gain.sqrt(), gain);` -/
def SVFParamsSmoothed.set_params_band_shelving (pr : Prim)
    (q : SVFParamsSmoothed) (w_c res gain : F) : SVFParamsSmoothed :=
  q.set_values (pr.g w_c) (res / pr.sqrt gain) gain

/-- `SVFParamsSmoothed::set_params_high_shelving`:
`let m2 = gain.sqrt(); self.set_values(g(w_c) * m2.sqrt(), res, m2);` -/
def SVFParamsSmoothed.set_params_high_shelving (pr : Prim)
    (q : SVFParamsSmoothed) (w_c res gain : F) : SVFParamsSmoothed :=
  q.set_values (pr.g w_c * pr.sqrt (pr.sqrt gain)) res (pr.sqrt gain)

/-- `SVFParamsSmoothed::set_params`: `self.set_values(g(w_c), res, gain);` -/
def SVFParamsSmoothed.set_params (pr : Prim) (q : SVFParamsSmoothed)
    (w_c res gain : F) : SVFParamsSmoothed :=
  q.set_values (pr.g w_c) res gain

/-- `SVFParamsSmoothed::set_values_smoothed`: all three coefficients set as
targets. -/
def SVFParamsSmoothed.set_values_smoothed (q : SVFParamsSmoothed)
    (g res gain inc : F) : SVFParamsSmoothed :=
  { k := q.k.set_target gain inc,
    g := q.g.set_target g inc,
    r := q.r.set_target res inc }

/-- `SVFParamsSmoothed::set_params_low_shelving_smoothed`:
`let m2 = gain.sqrt();
self.set_values_smoothed(g(w_c) / m2.sqrt(), res, m2, inc);` -/
def SVFParamsSmoothed.set_params_low_shelving_smoothed (pr : Prim)
    (q : SVFParamsSmoothed) (w_c res gain inc : F) : SVFParamsSmoothed :=
  q.set_values_smoothed (pr.g w_c / pr.sqrt (pr.sqrt gain)) res
    (pr.sqrt gain) inc

/-- `SVFParamsSmoothed::set_params_band_shelving_smoothed`:
`self.set_values_smoothed(g(w_c), res / gain.sqrt(), gain, inc);` -/
def SVFParamsSmoothed.set_params_band_shelving_smoothed (pr : Prim)
    (q : SVFParamsSmoothed) (w_c res gain inc : F) : SVFParamsSmoothed :=
  q.set_values_smoothed (pr.g w_c) (res / pr.sqrt gain) gain inc

/-- `SVFParamsSmoothed::set_params_high_shelving_smoothed`:
`let m2 = gain.sqrt();
self.set_values_smoothed(g(w_c) * m2.sqrt(), res, m2, inc);` -/
def SVFParamsSmoothed.set_params_high_shelving_smoothed (pr : Prim)
    (q : SVFParamsSmoothed) (w_c res gain inc : F) : SVFParamsSmoothed :=
  q.set_values_smoothed (pr.g w_c * pr.sqrt (pr.sqrt gain)) res
    (pr.sqrt gain) inc

/-- `SVFParamsSmoothed::set_params_smoothed`:
`self.g.set_target(g(w_c), inc); self.r.set_target(res, inc);
self.k.set_all_vals_instantly(gain);` — note the gain smoother is written
instantly, unlike in the shelving variants. -/
def SVFParamsSmoothed.set_params_smoothed (pr : Prim) (q : SVFParamsSmoothed)
    (w_c res gain inc : F) : SVFParamsSmoothed :=
  { g := q.g.set_target (pr.g w_c) inc,
    r := q.r.set_target res inc,
    k := q.k.set_all_vals_instantly gain }

/-! ## Claim C1: Integrator identity -/

/-- C1: every `Integrator.process x` computes `out = x + s_prev` and then
`s = out + x`, so after every call (from any prior state, hence after any
input sequence) the invariant `state = output + x` holds, `x` being the most
recent input. -/
theorem integrator_process_invariant (i : Integrator) (x : F) :
    (i.process x).out = x + i.s
    ∧ (i.process x).s = (i.process x).out + x
    ∧ (i.process x).state = (i.process x).output + x := by
  refine ⟨rfl, rfl, rfl⟩

/-! ## Claim C2: SVF.process dataflow -/

/-- C2: `SVF.process x g res` reads both integrators' pre-update states,
sets `g1 = res + g`, computes
`hp = (x - lp_state - g1 * bp_state) / (1 + g1 * g)`, then advances the
bandpass integrator with `hp * g`, caches `bp1` as the updated bandpass
output times `res`, and finally advances the lowpass integrator with the
updated bandpass output times `g`. -/
theorem svf_process_dataflow (f : SVF) (x g res : F) :
    (f.process x g res).x = x
    ∧ (f.process x g res).hp
        = (x - f.lp.state - (res + g) * f.bp.state) / (1 + (res + g) * g)
    ∧ (f.process x g res).bp = f.bp.process ((f.process x g res).hp * g)
    ∧ (f.process x g res).bp1 = (f.process x g res).bp.output * res
    ∧ (f.process x g res).lp
        = f.lp.process ((f.process x g res).bp.output * g) := by
  refine ⟨rfl, ?_, rfl, rfl, rfl⟩
  show ((res + g) * (-f.bp.state) + (x - f.lp.state)) / ((res + g) * g + 1)
      = (x - f.lp.state - (res + g) * f.bp.state) / (1 + (res + g) * g)
  rw [show (res + g) * (-f.bp.state) + (x - f.lp.state)
      = x - f.lp.state - (res + g) * f.bp.state by ring,
    show (res + g) * g + 1 = 1 + (res + g) * g by ring]

/-! ## Claim C3: the instant shelving setters skip the normalization -/

/-- C3: at the concrete primitive bundle `idPrim` and `w_c = 1`, `gain = 1`
(so that `g(w_c) = 1` and `sqrt(gain) = 1`, values the real primitives also
attain), `OnePoleParamsSmoothed.set_params_low_shelving` stores the raw
pre-warped value `g(w_c) / sqrt(gain) = 1` as the `g1` coefficient, while
`set_params_low_shelving_smoothed` with the same arguments targets the
normalized `g1(g(w_c) / sqrt(gain)) = 1/2`; the high-shelving pair
disagrees the same way.  The instant shelving setters skip the `g/(1+g)`
normalization that the smoothed variants (and the plain `set_params`)
apply. -/
theorem one_pole_shelving_setters_disagree :
    (OnePoleParamsSmoothed.set_params_low_shelving idPrim
        ⟨⟨0, 0⟩, ⟨0, 0⟩⟩ 1 1).g1.value = 1
    ∧ (OnePoleParamsSmoothed.set_params_low_shelving_smoothed idPrim
        ⟨⟨0, 0⟩, ⟨0, 0⟩⟩ 1 1 64).g1.target = 1 / 2
    ∧ (OnePoleParamsSmoothed.set_params_high_shelving idPrim
        ⟨⟨0, 0⟩, ⟨0, 0⟩⟩ 1 1).g1.value = 1
    ∧ (OnePoleParamsSmoothed.set_params_high_shelving_smoothed idPrim
        ⟨⟨0, 0⟩, ⟨0, 0⟩⟩ 1 1 64).g1.target = 1 / 2
    ∧ ((1 : F) ≠ 1 / 2) := by
  refine ⟨?_, ?_, ?_, ?_, by norm_num⟩ <;>
    simp [OnePoleParamsSmoothed.set_params_low_shelving,
      OnePoleParamsSmoothed.set_params_high_shelving,
      OnePoleParamsSmoothed.set_params_low_shelving_smoothed,
      OnePoleParamsSmoothed.set_params_high_shelving_smoothed,
      OnePoleParamsSmoothed.set_values_smoothed,
      LogSmoother.set_all_vals_instantly, LogSmoother.set_target,
      g1, idPrim] <;> norm_num

/-! ## Claim C4: which smoothed setters really set targets -/

/-- C4 counterexample: `SVFParamsSmoothed.set_params_smoothed` writes the
gain coefficient instantly, not as a smoothing target: starting from a
smoother bank whose gain value is `0`, after
`set_params_smoothed idPrim 1 1 2 64` the current gain value is already the
new gain `2`, not the old value `0`. -/
theorem svf_set_params_smoothed_gain_instant :
    (SVFParamsSmoothed.set_params_smoothed idPrim
        ⟨⟨0, 0⟩, ⟨0, 0⟩, ⟨0, 0⟩⟩ 1 1 2 64).k.value = 2
    ∧ ¬ (SVFParamsSmoothed.set_params_smoothed idPrim
        ⟨⟨0, 0⟩, ⟨0, 0⟩, ⟨0, 0⟩⟩ 1 1 2 64).k.value
      = (⟨⟨0, 0⟩, ⟨0, 0⟩, ⟨0, 0⟩⟩ : SVFParamsSmoothed).k.value := by
  refine ⟨rfl, by norm_num [SVFParamsSmoothed.set_params_smoothed,
    LogSmoother.set_all_vals_instantly]⟩

/-- C4 amended: the `OnePoleParamsSmoothed` smoothed setters and the three
`SVFParamsSmoothed` shelving smoothed setters set every computed derived
coefficient only as the corresponding smoother's interpolation target,
leaving every current value unchanged; `SVFParamsSmoothed.set_params_smoothed`
sets the `g` and `res` coefficients as targets (values unchanged) but writes
the gain coefficient instantly. -/
theorem smoothed_setters_set_targets (pr : Prim) (p : OnePoleParamsSmoothed)
    (q : SVFParamsSmoothed) (w_c res gain inc : F) :
    ((p.set_params_smoothed pr w_c gain inc).g1.value = p.g1.value
      ∧ (p.set_params_smoothed pr w_c gain inc).k.value = p.k.value
      ∧ (p.set_params_smoothed pr w_c gain inc).g1.target
          = g1 pr (pr.g w_c)
      ∧ (p.set_params_smoothed pr w_c gain inc).k.target = gain)
    ∧ ((p.set_params_low_shelving_smoothed pr w_c gain inc).g1.value
          = p.g1.value
      ∧ (p.set_params_low_shelving_smoothed pr w_c gain inc).k.value
          = p.k.value
      ∧ (p.set_params_low_shelving_smoothed pr w_c gain inc).g1.target
          = g1 pr (pr.g w_c / pr.sqrt gain)
      ∧ (p.set_params_low_shelving_smoothed pr w_c gain inc).k.target = gain)
    ∧ ((p.set_params_high_shelving_smoothed pr w_c gain inc).g1.value
          = p.g1.value
      ∧ (p.set_params_high_shelving_smoothed pr w_c gain inc).k.value
          = p.k.value
      ∧ (p.set_params_high_shelving_smoothed pr w_c gain inc).g1.target
          = g1 pr (pr.g w_c * pr.sqrt gain)
      ∧ (p.set_params_high_shelving_smoothed pr w_c gain inc).k.target = gain)
    ∧ ((q.set_params_low_shelving_smoothed pr w_c res gain inc).g.value
          = q.g.value
      ∧ (q.set_params_low_shelving_smoothed pr w_c res gain inc).r.value
          = q.r.value
      ∧ (q.set_params_low_shelving_smoothed pr w_c res gain inc).k.value
          = q.k.value
      ∧ (q.set_params_low_shelving_smoothed pr w_c res gain inc).g.target
          = pr.g w_c / pr.sqrt (pr.sqrt gain)
      ∧ (q.set_params_low_shelving_smoothed pr w_c res gain inc).r.target
          = res
      ∧ (q.set_params_low_shelving_smoothed pr w_c res gain inc).k.target
          = pr.sqrt gain)
    ∧ ((q.set_params_band_shelving_smoothed pr w_c res gain inc).g.value
          = q.g.value
      ∧ (q.set_params_band_shelving_smoothed pr w_c res gain inc).r.value
          = q.r.value
      ∧ (q.set_params_band_shelving_smoothed pr w_c res gain inc).k.value
          = q.k.value
      ∧ (q.set_params_band_shelving_smoothed pr w_c res gain inc).g.target
          = pr.g w_c
      ∧ (q.set_params_band_shelving_smoothed pr w_c res gain inc).r.target
          = res / pr.sqrt gain
      ∧ (q.set_params_band_shelving_smoothed pr w_c res gain inc).k.target
          = gain)
    ∧ ((q.set_params_high_shelving_smoothed pr w_c res gain inc).g.value
          = q.g.value
      ∧ (q.set_params_high_shelving_smoothed pr w_c res gain inc).r.value
          = q.r.value
      ∧ (q.set_params_high_shelving_smoothed pr w_c res gain inc).k.value
          = q.k.value
      ∧ (q.set_params_high_shelving_smoothed pr w_c res gain inc).g.target
          = pr.g w_c * pr.sqrt (pr.sqrt gain)
      ∧ (q.set_params_high_shelving_smoothed pr w_c res gain inc).r.target
          = res
      ∧ (q.set_params_high_shelving_smoothed pr w_c res gain inc).k.target
          = pr.sqrt gain)
    ∧ ((q.set_params_smoothed pr w_c res gain inc).g.value = q.g.value
      ∧ (q.set_params_smoothed pr w_c res gain inc).r.value = q.r.value
      ∧ (q.set_params_smoothed pr w_c res gain inc).g.target = pr.g w_c
      ∧ (q.set_params_smoothed pr w_c res gain inc).r.target = res
      ∧ (q.set_params_smoothed pr w_c res gain inc).k.value = gain
      ∧ (q.set_params_smoothed pr w_c res gain inc).k.target = gain) := by
  and_intros <;> rfl

/-! ## Claim C5: OnePole shape complementarity -/

/-- C5: after `OnePole.process x theta`, the accessors satisfy
`get_lowpass + get_highpass = x` and
`get_allpass = get_lowpass - get_highpass` exactly, for every input,
coefficient and prior state (hence at every sample). -/
theorem one_pole_shape_complementarity (f : OnePole) (x theta : F) :
    (f.process x theta).get_lowpass + (f.process x theta).get_highpass = x
    ∧ (f.process x theta).get_allpass
        = (f.process x theta).get_lowpass - (f.process x theta).get_highpass := by
  constructor
  · show (f.process x theta).get_lowpass
        + (x - (f.process x theta).get_lowpass) = x
    ring
  · rfl

/-! ## Claim C6: SVF shape complementarity -/

/-- C6: after `SVF.process x g res`, the accessors satisfy
`get_notch = x - get_unit_bandpass` and
`get_allpass = 2 * get_unit_bandpass - x` exactly, for every input,
parameters and prior state (hence at every sample). -/
theorem svf_shape_complementarity (f : SVF) (x g res : F) :
    (f.process x g res).get_notch
        = x - (f.process x g res).get_unit_bandpass
    ∧ (f.process x g res).get_allpass
        = 2 * (f.process x g res).get_unit_bandpass - x := by
  constructor
  · rfl
  · show (f.process x g res).get_unit_bandpass * 2 + (-x)
        = 2 * (f.process x g res).get_unit_bandpass - x
    ring

/-! ## Claim C7: OnePole boundary behavior -/

/-- Helper: a one-pole whose integrator has zero state and zero output keeps
both at zero under any sequence of `process` calls with `theta = 0`
(each call hands the integrator the input `(x - s) * 0 = 0`). -/
lemma one_pole_theta_zero_foldl (xs : List F) :
    ∀ f : OnePole, f.lp.s = 0 → f.lp.out = 0 →
      (xs.foldl (fun a y => a.process y 0) f).lp.s = 0
      ∧ (xs.foldl (fun a y => a.process y 0) f).lp.out = 0 := by
  induction xs with
  | nil => exact fun f hs ho => ⟨hs, ho⟩
  | cons y ys ih =>
    intro f hs ho
    simp only [List.foldl_cons]
    exact ih _ (by simp [OnePole.process, Integrator.process, Integrator.state, hs])
      (by simp [OnePole.process, Integrator.process, Integrator.state, hs])

/-- C7: from a zero-initialized `OnePole`, with `theta = 0` the lowpass
output stays at its initial value after every number of `process` calls,
for every input sequence; with `theta = 1`, a single `process x 1` call
makes the lowpass output equal `x` exactly. -/
theorem one_pole_boundary_behavior (xs : List F) (x : F) :
    (xs.foldl (fun a y => a.process y 0) OnePole.init).get_lowpass
        = OnePole.init.get_lowpass
    ∧ (OnePole.init.process x 1).get_lowpass = x := by
  constructor
  · have h := one_pole_theta_zero_foldl xs OnePole.init rfl rfl
    show (xs.foldl (fun a y => a.process y 0) OnePole.init).lp.out
        = OnePole.init.lp.out
    rw [h.2]; rfl
  · show (x - OnePole.init.lp.state) * 1 + OnePole.init.lp.s = x
    show (x - 0) * 1 + 0 = x
    ring

/-! ## Claim C8: reset followed by zero input -/

/-- Helper: a one-pole whose integrator has zero state and zero output
keeps both at zero under any sequence of zero-input `process` calls with
arbitrary coefficients. -/
lemma one_pole_zero_input_foldl (ths : List F) :
    ∀ f : OnePole, f.lp.s = 0 → f.lp.out = 0 →
      (ths.foldl (fun a th => a.process 0 th) f).lp.s = 0
      ∧ (ths.foldl (fun a th => a.process 0 th) f).lp.out = 0 := by
  induction ths with
  | nil => exact fun f hs ho => ⟨hs, ho⟩
  | cons th rest ih =>
    intro f hs ho
    simp only [List.foldl_cons]
    exact ih _ (by simp [OnePole.process, Integrator.process, Integrator.state, hs])
      (by simp [OnePole.process, Integrator.process, Integrator.state, hs])

/-- Helper: an integrator with zero state and zero output stays all-zero
under repeated zero-input `process` calls. -/
lemma integrator_zero_run (n : ℕ) :
    ∀ i : Integrator, i.s = 0 → i.out = 0 →
      (i.processN n).s = 0 ∧ (i.processN n).out = 0 := by
  induction n with
  | zero => exact fun i hs ho => ⟨hs, ho⟩
  | succ m ih =>
    intro i hs ho
    show ((i.process 0).processN m).s = 0 ∧ ((i.process 0).processN m).out = 0
    exact ih _ (by simp [Integrator.process, hs]) (by simp [Integrator.process, hs])

/-- Helper: the all-zero invariant of an `SVF` (both integrators fully
zero, cached `hp` and `bp1` zero) is preserved by `process` with zero
input and arbitrary coefficients. -/
lemma svf_zero_step (f : SVF) (g res : F)
    (hbs : f.bp.s = 0) (hls : f.lp.s = 0) :
    (f.process 0 g res).bp.s = 0 ∧ (f.process 0 g res).bp.out = 0
    ∧ (f.process 0 g res).lp.s = 0 ∧ (f.process 0 g res).lp.out = 0
    ∧ (f.process 0 g res).hp = 0 ∧ (f.process 0 g res).bp1 = 0 := by
  simp [SVF.process, Integrator.process, Integrator.state, Integrator.output,
    hbs, hls]

/-- Helper: foldl form of `svf_zero_step` over a coefficient sequence. -/
lemma svf_zero_foldl (ps : List (F × F)) :
    ∀ f : SVF, f.bp.s = 0 → f.bp.out = 0 → f.lp.s = 0 → f.lp.out = 0 →
      f.hp = 0 → f.bp1 = 0 →
      (ps.foldl (fun a q => a.process 0 q.1 q.2) f).bp.s = 0
      ∧ (ps.foldl (fun a q => a.process 0 q.1 q.2) f).bp.out = 0
      ∧ (ps.foldl (fun a q => a.process 0 q.1 q.2) f).lp.s = 0
      ∧ (ps.foldl (fun a q => a.process 0 q.1 q.2) f).lp.out = 0
      ∧ (ps.foldl (fun a q => a.process 0 q.1 q.2) f).hp = 0
      ∧ (ps.foldl (fun a q => a.process 0 q.1 q.2) f).bp1 = 0 := by
  induction ps with
  | nil => exact fun f h1 h2 h3 h4 h5 h6 => ⟨h1, h2, h3, h4, h5, h6⟩
  | cons q qs ih =>
    intro f h1 h2 h3 h4 h5 h6
    simp only [List.foldl_cons]
    obtain ⟨s1, s2, s3, s4, s5, s6⟩ := svf_zero_step f q.1 q.2 h1 h3
    exact ih _ s1 s2 s3 s4 s5 s6

/-- C8: after `reset`, any positive number of `process` calls with zero
input yields zero output, for the `Integrator` (any prior state, `n ≥ 1`
zero samples), the `OnePole` (any coefficient sequence), and the `SVF`
(any coefficient sequence): zero input sustains zero state. -/
theorem reset_then_zero_input_outputs_zero
    (i : Integrator) (n : ℕ) (hn : n ≠ 0)
    (p : OnePole) (thetas : List F) (ht : thetas ≠ [])
    (f : SVF) (ps : List (F × F)) (hps : ps ≠ []) :
    (i.reset.processN n).output = 0
    ∧ (thetas.foldl (fun a th => a.process 0 th) p.reset).get_lowpass = 0
    ∧ (ps.foldl (fun a q => a.process 0 q.1 q.2) f.reset).get_lowpass = 0
    ∧ (ps.foldl (fun a q => a.process 0 q.1 q.2) f.reset).get_bandpass = 0
    ∧ (ps.foldl (fun a q => a.process 0 q.1 q.2) f.reset).get_highpass = 0
    ∧ (ps.foldl (fun a q => a.process 0 q.1 q.2) f.reset).get_unit_bandpass
        = 0 := by
  refine ⟨?_, ?_, ?_⟩
  · obtain ⟨m, rfl⟩ := Nat.exists_eq_succ_of_ne_zero hn
    show (((i.reset.process 0).processN m)).output = 0
    exact (integrator_zero_run m _ (by simp [Integrator.process, Integrator.reset])
      (by simp [Integrator.process, Integrator.reset])).2
  · obtain ⟨th, rest, rfl⟩ := List.exists_cons_of_ne_nil ht
    simp only [List.foldl_cons]
    exact (one_pole_zero_input_foldl rest (p.reset.process 0 th)
      (by simp [OnePole.process, OnePole.reset, Integrator.process,
        Integrator.state, Integrator.reset])
      (by simp [OnePole.process, OnePole.reset, Integrator.process,
        Integrator.state, Integrator.reset])).2
  · obtain ⟨q, rest, rfl⟩ := List.exists_cons_of_ne_nil hps
    simp only [List.foldl_cons]
    obtain ⟨s1, s2, s3, s4, s5, s6⟩ :=
      svf_zero_step f.reset q.1 q.2 rfl rfl
    obtain ⟨t1, t2, t3, t4, t5, t6⟩ := svf_zero_foldl rest _ s1 s2 s3 s4 s5 s6
    exact ⟨t4, t2, t5, t6⟩

/-- Witness for C8 at concrete inputs: integrator state `⟨3, 7⟩` with two
zero samples, a one-pole with one zero sample at `theta = 5`, an SVF with
one zero sample at `g = 1, res = 1`. -/
theorem reset_then_zero_input_outputs_zero_witness :
    (2 : ℕ) ≠ 0 ∧ ([(5 : F)]) ≠ [] ∧ ([((1 : F), (1 : F))]) ≠ []
    ∧ ((Integrator.reset ⟨3, 7⟩).processN 2).output = 0
    ∧ (([(5 : F)]).foldl (fun a th => a.process 0 th)
        (OnePole.reset ⟨⟨2, 9⟩, 4⟩)).get_lowpass = 0
    ∧ (([((1 : F), (1 : F))]).foldl (fun a q => a.process 0 q.1 q.2)
        (SVF.reset ⟨1, 2, ⟨3, 4⟩, 5, ⟨6, 7⟩⟩)).get_lowpass = 0
    ∧ (([((1 : F), (1 : F))]).foldl (fun a q => a.process 0 q.1 q.2)
        (SVF.reset ⟨1, 2, ⟨3, 4⟩, 5, ⟨6, 7⟩⟩)).get_bandpass = 0
    ∧ (([((1 : F), (1 : F))]).foldl (fun a q => a.process 0 q.1 q.2)
        (SVF.reset ⟨1, 2, ⟨3, 4⟩, 5, ⟨6, 7⟩⟩)).get_highpass = 0
    ∧ (([((1 : F), (1 : F))]).foldl (fun a q => a.process 0 q.1 q.2)
        (SVF.reset ⟨1, 2, ⟨3, 4⟩, 5, ⟨6, 7⟩⟩)).get_unit_bandpass = 0 :=
  ⟨by decide, by decide, by decide,
    reset_then_zero_input_outputs_zero ⟨3, 7⟩ 2 (by decide)
      ⟨⟨2, 9⟩, 4⟩ [(5 : F)] (by decide)
      ⟨1, 2, ⟨3, 4⟩, 5, ⟨6, 7⟩⟩ [((1 : F), (1 : F))] (by decide)⟩

/-! ## Claim C9: reset frame conditions -/

/-- C9: `reset` mutates only the integrators' internal `s` state:
`Integrator.reset` zeroes `s` and leaves `out` unchanged; `OnePole.reset`
delegates to the integrator and leaves the cached `x` unchanged;
`SVF.reset` leaves the cached `x`, `hp` and `bp1` (and both integrators'
`out`) unchanged while zeroing only the `s` fields of both owned
integrators. -/
theorem reset_frame_conditions (i : Integrator) (p : OnePole) (f : SVF) :
    i.reset.out = i.out ∧ i.reset.s = 0
    ∧ p.reset.x = p.x ∧ p.reset.lp.out = p.lp.out ∧ p.reset.lp.s = 0
    ∧ f.reset.x = f.x ∧ f.reset.hp = f.hp ∧ f.reset.bp1 = f.bp1
    ∧ f.reset.bp.out = f.bp.out ∧ f.reset.lp.out = f.lp.out
    ∧ f.reset.bp.s = 0 ∧ f.reset.lp.s = 0 :=
  ⟨rfl, rfl, rfl, rfl, rfl, rfl, rfl, rfl, rfl, rfl, rfl, rfl⟩

/-! ## Claim C10: the SVF division is well-defined in range -/

/-- C10: under the documented parameter ranges `0 ≤ g` and `0 ≤ res`, the
divisor `1 + (res + g) * g` computed inside `SVF.process` is at least `1`,
hence nonzero, and the division producing `hp` is an exact solution:
`hp * (1 + (res + g) * g)` recovers the numerator `x - lp_state -
(res + g) * bp_state`. -/
theorem svf_divisor_nonzero (f : SVF) (x g res : F)
    (hg : 0 ≤ g) (hr : 0 ≤ res) :
    1 ≤ 1 + (res + g) * g
    ∧ (1 + (res + g) * g) ≠ 0
    ∧ (f.process x g res).hp * (1 + (res + g) * g)
        = x - f.lp.state - (res + g) * f.bp.state := by
  have h0 : (0 : F) ≤ (res + g) * g := mul_nonneg (by linarith) hg
  have hle : (1 : F) ≤ 1 + (res + g) * g := by linarith
  have hne : ((res + g) * g + 1 : F) ≠ 0 := ne_of_gt (by linarith)
  refine ⟨hle, by rw [add_comm]; exact hne, ?_⟩
  show ((res + g) * (-f.bp.state) + (x - f.lp.state)) / ((res + g) * g + 1)
      * (1 + (res + g) * g) = x - f.lp.state - (res + g) * f.bp.state
  field_simp
  ring

/-- Witness for C10 at `g = 1`, `res = 1`, `x = 1` and a concrete
pre-call state. -/
theorem svf_divisor_nonzero_witness :
    (0 : F) ≤ 1
    ∧ (1 ≤ 1 + ((1 : F) + 1) * 1
       ∧ (1 + ((1 : F) + 1) * 1) ≠ 0
       ∧ ((⟨1, 2, ⟨3, 4⟩, 5, ⟨6, 7⟩⟩ : SVF).process 1 1 1).hp
            * (1 + ((1 : F) + 1) * 1)
          = 1 - (⟨1, 2, ⟨3, 4⟩, 5, ⟨6, 7⟩⟩ : SVF).lp.state
            - ((1 : F) + 1) * (⟨1, 2, ⟨3, 4⟩, 5, ⟨6, 7⟩⟩ : SVF).bp.state) :=
  ⟨by norm_num,
    svf_divisor_nonzero ⟨1, 2, ⟨3, 4⟩, 5, ⟨6, 7⟩⟩ 1 1 1 (by norm_num) (by norm_num)⟩

end Filters
